import Mathlib

/-!
Verification of the Instagram link-resolution pipeline
(`src/app/parser-instagram/index.ts`).

The embedding models:
* `processMedia` / `processMediaList` — the recursive media-flattening helper
  (source lines 225-245).  The source closure mutates an outer `media` array,
  so the embedding passes that array explicitly as state; JS exceptions
  (e.g. indexing `[0]` on an empty array and then reading `.url`) surface as
  `Except.error`.
* `computeForLink` — the per-link resolution (source lines 115-256), as a
  function of the classification results (`postData` / `storyData`) and of the
  two authenticated-fetch responses, which are external inputs to the core.
* a bounded-concurrency pool — the batch runner `processRequests` lives in
  `src/resolvers/lib.js`, which is not among the provided sources; it is
  modelled from the spec as a small transition system.
-/

/-- Kind of a normalized media descriptor: `'video'` or `'photo'` in the source. -/
inductive MediaKind : Type where
  | video : MediaKind
  | photo : MediaKind
deriving DecidableEq, Repr

/-- One element of the output `media` array: `{ type, url }` in the source. -/
structure MediaDescriptor where
  kind : MediaKind
  url : String
deriving DecidableEq, Repr

/-- Embedding of the untyped JSON item consumed by `processMedia`.
`video_versions` is the list of video-variant urls (`item.video_versions`,
each entry standing for its `.url`); `image_versions2` is the list of image
candidate urls (`item.image_versions2.candidates`, each entry standing for its
`.url`); `carousel_media` is the list of child records; `pk` is the primary
key used by the story branch.  Each field is `none` when absent from the JSON
object and `some` when present (a present-but-empty array is `some []`, which
is truthy in JS). -/
inductive RawMediaRecord : Type where
  | mk
      (video_versions : Option (List String))
      (image_versions2 : Option (List String))
      (carousel_media : Option (List RawMediaRecord))
      (pk : Option String) : RawMediaRecord
deriving Repr

/-- Field accessor for `item.video_versions`. -/
def RawMediaRecord.video_versions : RawMediaRecord → Option (List String)
  | .mk v _ _ _ => v

/-- Field accessor for `item.image_versions2` (its `candidates` url list). -/
def RawMediaRecord.image_versions2 : RawMediaRecord → Option (List String)
  | .mk _ i _ _ => i

/-- Field accessor for `item.carousel_media`. -/
def RawMediaRecord.carousel_media : RawMediaRecord → Option (List RawMediaRecord)
  | .mk _ _ c _ => c

/-- Field accessor for `item.pk`. -/
def RawMediaRecord.pk : RawMediaRecord → Option String
  | .mk _ _ _ p => p

mutual

/-- Embedding of `processMedia` (source lines 225-241).  The source closure
pushes onto the enclosing mutable `media` array; here that array is passed in
and the updated array is returned.  `item.video_versions[0].url` on a present
but empty array throws a `TypeError` in JS (`undefined.url`), modelled as
`Except.error "TypeError"`; likewise for `image_versions2.candidates`. -/
def processMedia (media : List MediaDescriptor) :
    RawMediaRecord → Except String (List MediaDescriptor)
  | .mk vv iv cm _ =>
    match vv with
    | some vs =>
      match vs with
      | u :: _ => .ok (media ++ [⟨MediaKind.video, u⟩])
      | [] => .error "TypeError"
    | none =>
      match iv with
      | some cs =>
        match cs with
        | u :: _ => .ok (media ++ [⟨MediaKind.photo, u⟩])
        | [] => .error "TypeError"
      | none =>
        match cm with
        | some children => processMediaList media children
        | none => .ok media

/-- Embedding of the two iteration sites over records: the
`for (const carouselItem of item.carousel_media)` loop (lines 237-239) and the
outer `for (const item of rawMedia)` loop (lines 243-245).  A thrown error
aborts the whole loop, as in JS. -/
def processMediaList (media : List MediaDescriptor) :
    List RawMediaRecord → Except String (List MediaDescriptor)
  | [] => .ok media
  | r :: rs =>
    match processMedia media r with
    | .error e => .error e
    | .ok m => processMediaList m rs

end

mutual

/-- Follows the spec's words (§4.2, refinement counterpart of `processMedia`):
a record carrying a video-variant list emits one video descriptor from the
first variant; else an image-variant list emits one photo descriptor from the
first candidate; else a carousel child list is recursively flattened in order
and spliced in place; else the record contributes nothing. -/
def specFlattenOne : RawMediaRecord → List MediaDescriptor
  | .mk vv iv cm _ =>
    match vv with
    | some vs =>
      match vs with
      | u :: _ => [⟨MediaKind.video, u⟩]
      | [] => []
    | none =>
      match iv with
      | some cs =>
        match cs with
        | u :: _ => [⟨MediaKind.photo, u⟩]
        | [] => []
      | none =>
        match cm with
        | some children => specFlattenList children
        | none => []

/-- Follows the spec's words (§4.2): flatten each record in order and return
the concatenated ordered list (depth-first, left-to-right). -/
def specFlattenList : List RawMediaRecord → List MediaDescriptor
  | [] => []
  | r :: rs => specFlattenOne r ++ specFlattenList rs

end

/-- The `meta` object of a post descriptor; `title` is `meta.title`, absent as
`none`. -/
structure PostMeta where
  title : Option String

/-- Post descriptor found by `findPostData` (`tracePolicy === 'polaris.postPage'`).
`url` is the relative path `postData.url`; `media_id` is
`postData.rootView.props.media_id`; `meta` is `postData.meta`. -/
structure PostData where
  url : String
  media_id : String
  meta : PostMeta

/-- The `user` object of a reel response: `full_name` and `username`, each
absent as `none`. -/
structure StoryUser where
  full_name : Option String
  username : Option String

/-- One entry of the reel-media response's `reels` map:
`{ user, items }`. -/
structure Reel where
  user : StoryUser
  items : List RawMediaRecord

/-- Story descriptor found by `findStoryData` (`tracePolicy === 'polaris.StoriesPage'`).
`url` is the relative path `storyData.url`; `userId` is
`storyData.rootView.props.user.id`; `initial_media_id` is
`storyData.params.initial_media_id`. -/
structure StoryData where
  url : String
  userId : String
  initial_media_id : String

/-- The per-link result `{ title, url, media }` (source lines 251-255). -/
structure ResolvedContent where
  title : Option String
  url : Option String
  media : List MediaDescriptor

/-- JS truthiness of a nullable string: `undefined`/`null` and `""` are falsy. -/
def jsTruthy : Option String → Option String
  | some s => if s = "" then none else some s
  | none => none

/-- Embedding of `a || b || null` on nullable strings (source line 205). -/
def jsOr (a b : Option String) : Option String :=
  match jsTruthy a with
  | some s => some s
  | none => jsTruthy b

/-- Keyed access into the response's `reels` object, modelled as an
association list. -/
def lookupReel : List (String × Reel) → String → Option Reel
  | [], _ => none
  | (k, v) :: rest, key => if k = key then some v else lookupReel rest key

/-- Embedding of the tail of `computeForLink` shared by both branches
(source lines 223-255): flatten `rawMedia`, throw `'No media found'` when the
flattened list is empty, otherwise return `{ title, url, media }`. -/
def finishLink (title : Option String) (url : Option String)
    (rawMedia : List RawMediaRecord) : Except String ResolvedContent :=
  match processMediaList [] rawMedia with
  | .error e => .error e
  | .ok media =>
    if media.length = 0 then .error "No media found"
    else .ok ⟨title, url, media⟩

/-- Embedding of `computeForLink` (source lines 115-256) as a function of the
classification results and the fetch responses.  `postItems` is `data.items`
of the media-info response (post branch); `storyReels` is `data.reels` of the
reel-media response (story branch).  The `switch (true)` dispatches on
`!!postData` first, then `!!storyData`, else throws `'Unhandled page type'`.
In the post branch the title is `postData?.meta.title ?? null`; in the story
branch `data.reels[userId].user` is read unconditionally (a `TypeError` if the
key is absent), the title is `full_name || username || null`, and `rawMedia`
is the single item of `reels[userId].items` whose `pk` equals
`storyData.params.initial_media_id`, or empty when none matches. -/
def computeForLink (postData : Option PostData) (storyData : Option StoryData)
    (postItems : List RawMediaRecord) (storyReels : List (String × Reel)) :
    Except String ResolvedContent :=
  match postData with
  | some pd =>
    finishLink pd.meta.title (some ("https://www.instagram.com" ++ pd.url)) postItems
  | none =>
    match storyData with
    | some sd =>
      match lookupReel storyReels sd.userId with
      | none => .error "TypeError"
      | some reel =>
        let title := jsOr reel.user.full_name reel.user.username
        let rawMedia :=
          match reel.items.find? (fun i => i.pk == some sd.initial_media_id) with
          | some r => [r]
          | none => []
        finishLink title (some ("https://www.instagram.com" ++ sd.url)) rawMedia
    | none => .error "Unhandled page type"

/-- The per-link inputs of one batch item: classification results and fetch
responses for that link. -/
structure LinkCtx where
  postData : Option PostData
  storyData : Option StoryData
  postItems : List RawMediaRecord
  storyReels : List (String × Reel)

/-- One batch item's resolution: `computeForLink` applied to that item's
inputs; a thrown error is this item's failure outcome. -/
def resolveLink (ctx : LinkCtx) : Except String ResolvedContent :=
  computeForLink ctx.postData ctx.storyData ctx.postItems ctx.storyReels

/-- Modelled from the spec: state of the Bounded-Concurrency Batch Runner
(`processRequests` of `src/resolvers/lib.js`, not among the provided sources;
spec §4.4).  `pending` holds items not yet dispatched, `active` the currently
unsettled invocations, `settled` the per-item outcomes collected so far. -/
structure PoolState (α β : Type) where
  pending : List α
  active : List α
  settled : List (α × Except String β)

/-- Modelled from the spec: one scheduling step of the Batch Runner (§4.4).
`dispatch` admits the next queued item only while fewer than `N` invocations
are active; `settle` completes one active invocation, recording the outcome
`fn a` (success or failure alike) for its originating item and leaving every
sibling invocation active. -/
inductive PoolStep {α β : Type} (fn : α → Except String β) (N : Nat) :
    PoolState α β → PoolState α β → Prop where
  | dispatch (a : α) (rest active : List α)
      (settled : List (α × Except String β)) (h : active.length < N) :
      PoolStep fn N ⟨a :: rest, active, settled⟩ ⟨rest, a :: active, settled⟩
  | settle (pre : List α) (a : α) (post : List α) (pending : List α)
      (settled : List (α × Except String β)) :
      PoolStep fn N ⟨pending, pre ++ a :: post, settled⟩
        ⟨pending, pre ++ post, (a, fn a) :: settled⟩

/-- Modelled from the spec: the runs of the Batch Runner on input `items`,
as the states reachable from the initial state (all items pending, none
active, none settled) by scheduling steps. -/
inductive PoolReach {α β : Type} (fn : α → Except String β) (N : Nat)
    (items : List α) : PoolState α β → Prop where
  | init : PoolReach fn N items ⟨items, [], []⟩
  | step {s s' : PoolState α β} : PoolReach fn N items s →
      PoolStep fn N s s' → PoolReach fn N items s'

/-- Sample video leaf: `{ pk: "99", video_versions: [{url: "v.mp4"}] }`. -/
def videoLeaf : RawMediaRecord := .mk (some ["v.mp4"]) none none (some "99")

/-- Sample image leaf: `{ image_versions2: { candidates: [{url: "i.jpg"}] } }`. -/
def imageLeaf : RawMediaRecord := .mk none (some ["i.jpg"]) none none

/-- Sample leaf carrying both a video-variant list and an image-variant list. -/
def bothLeaf : RawMediaRecord := .mk (some ["v.mp4"]) (some ["i.jpg"]) none none

/-- Sample carousel record: `{ carousel_media: [imageLeaf, videoLeaf] }`. -/
def carouselRec : RawMediaRecord := .mk none none (some [imageLeaf, videoLeaf]) none

/-- Sample record of unrecognized shape (only a primary key). -/
def unrecognizedRec : RawMediaRecord := .mk none none none (some "77")

/-- Sample post descriptor. -/
def postSample : PostData := ⟨"/p/abc/", "123", ⟨some "T"⟩⟩

/-- Sample media-info response items for the post scenario. -/
def postItemsSample : List RawMediaRecord := [.mk none (some ["a.jpg"]) none none]

/-- Sample story descriptor with `userId = "u1"`, `initial_media_id = "99"`. -/
def storySample : StoryData := ⟨"/stories/u1/99/", "u1", "99"⟩

/-- Sample reel response entry: user `full_name = "A B"`, one item `pk = "99"`. -/
def reelSample : Reel := ⟨⟨some "A B", none⟩, [videoLeaf]⟩

/-- Sample per-item computation for exercising the batch-runner model: item 2
fails, all others succeed. -/
def wfn (n : Nat) : Except String Nat := if n = 2 then .error "boom" else .ok n

/- ----------------------------------------------------------------- -/
/- Helper lemmas                                                       -/
/- ----------------------------------------------------------------- -/

mutual

/-- The contribution of a record does not depend on the already-accumulated
`media` array: running from `acc` is running from `[]` with `acc` prepended. -/
theorem processMedia_state (acc : List MediaDescriptor) (r : RawMediaRecord) :
    processMedia acc r = (processMedia [] r).map (acc ++ ·) := by
  match r with
  | .mk vv iv cm pk =>
    match vv with
    | some (u :: _) => simp [processMedia, Except.map]
    | some [] => simp [processMedia, Except.map]
    | none =>
      match iv with
      | some (u :: _) => simp [processMedia, Except.map]
      | some [] => simp [processMedia, Except.map]
      | none =>
        match cm with
        | some children =>
          simp only [processMedia]
          exact processMediaList_state acc children
        | none => simp [processMedia, Except.map]

/-- List version of `processMedia_state`. -/
theorem processMediaList_state (acc : List MediaDescriptor)
    (rs : List RawMediaRecord) :
    processMediaList acc rs = (processMediaList [] rs).map (acc ++ ·) := by
  match rs with
  | [] => simp [processMediaList, Except.map]
  | r :: rs =>
    simp only [processMediaList]
    rw [processMedia_state acc r]
    cases h : processMedia [] r with
    | error e => simp [Except.map]
    | ok m =>
      simp only [Except.map]
      rw [processMediaList_state (acc ++ m) rs, processMediaList_state m rs]
      cases processMediaList [] rs with
      | error e => simp [Except.map]
      | ok out => simp [Except.map]

end

mutual

/-- When `processMedia` succeeds it appends exactly the spec's flattening of
the record. -/
theorem processMedia_ok_spec (acc out : List MediaDescriptor)
    (r : RawMediaRecord) (h : processMedia acc r = .ok out) :
    out = acc ++ specFlattenOne r := by
  match r with
  | .mk vv iv cm pk =>
    match vv with
    | some (u :: _) =>
      simp [processMedia] at h
      simp [specFlattenOne, ← h]
    | some [] => simp [processMedia] at h
    | none =>
      match iv with
      | some (u :: _) =>
        simp [processMedia] at h
        simp [specFlattenOne, ← h]
      | some [] => simp [processMedia] at h
      | none =>
        match cm with
        | some children =>
          simp only [processMedia] at h
          simpa [specFlattenOne] using processMediaList_ok_spec acc out children h
        | none =>
          simp [processMedia] at h
          simp [specFlattenOne, ← h]

/-- When `processMediaList` succeeds it appends exactly the spec's
depth-first, left-to-right flattening of the record list. -/
theorem processMediaList_ok_spec (acc out : List MediaDescriptor)
    (rs : List RawMediaRecord) (h : processMediaList acc rs = .ok out) :
    out = acc ++ specFlattenList rs := by
  match rs with
  | [] =>
    simp [processMediaList] at h
    simp [specFlattenList, ← h]
  | r :: rs =>
    simp only [processMediaList] at h
    cases hm : processMedia acc r with
    | error e => rw [hm] at h; exact absurd h (by simp)
    | ok m =>
      rw [hm] at h
      have h1 := processMedia_ok_spec acc m r hm
      have h2 := processMediaList_ok_spec m out rs h
      simp [specFlattenList, h2, h1]

end

/-- Inversion of the shared tail: a successful result carries the non-empty
flattened media list, the given title and the given url. -/
theorem finishLink_ok (title url : Option String)
    (rawMedia : List RawMediaRecord) (rc : ResolvedContent)
    (h : finishLink title url rawMedia = .ok rc) :
    rc.media ≠ [] ∧ rc.title = title ∧ rc.url = url ∧
      processMediaList [] rawMedia = .ok rc.media := by
  unfold finishLink at h
  split at h
  · exact absurd h (by simp)
  · rename_i media heq
    split at h
    · exact absurd h (by simp)
    · rename_i hz
      cases h
      refine ⟨?_, rfl, rfl, heq⟩
      intro hnil
      exact hz (by simpa using hnil)

/-- Every successful `computeForLink` goes through `finishLink`. -/
theorem computeForLink_ok (postData : Option PostData)
    (storyData : Option StoryData) (postItems : List RawMediaRecord)
    (storyReels : List (String × Reel)) (rc : ResolvedContent)
    (h : computeForLink postData storyData postItems storyReels = .ok rc) :
    ∃ title url rawMedia, finishLink title url rawMedia = .ok rc := by
  unfold computeForLink at h
  split at h
  · exact ⟨_, _, _, h⟩
  · split at h
    · split at h
      · exact absurd h (by simp)
      · exact ⟨_, _, _, h⟩
    · exact absurd h (by simp)

/-- Invariant of the batch-runner model: the active window never exceeds `N`,
the items are exactly distributed among pending, active and settled (as a
multiset), and every settled outcome is the resolver's value for its
originating item. -/
theorem poolInv {α β : Type} (fn : α → Except String β) (N : Nat)
    (items : List α) (s : PoolState α β) (h : PoolReach fn N items s) :
    s.active.length ≤ N ∧
      ((s.pending : Multiset α) + (s.active : Multiset α) +
        ((s.settled.map Prod.fst : List α) : Multiset α) = (items : Multiset α)) ∧
      (∀ p ∈ s.settled, p.2 = fn p.1) := by
  induction h with
  | init => simp
  | step hr hstep ih =>
    obtain ⟨ihN, ihM, ihA⟩ := ih
    cases hstep with
    | dispatch a rest active settled hlt =>
      refine ⟨by simpa using hlt, ?_, ihA⟩
      rw [← ihM]
      simp only [← Multiset.cons_coe, ← Multiset.singleton_add]
      abel
    | settle pre a post pending settled =>
      refine ⟨?_, ?_, ?_⟩
      · have : (pre ++ post).length ≤ (pre ++ a :: post).length := by
          simp only [List.length_append, List.length_cons]
          omega
        exact le_trans this ihN
      · rw [← ihM]
        simp only [List.map_cons, ← Multiset.coe_add, ← Multiset.cons_coe,
          ← Multiset.singleton_add]
        abel
      · intro p hp
        rcases List.mem_cons.mp hp with hp | hp
        · subst hp; rfl
        · exact ihA p hp

/- ----------------------------------------------------------------- -/
/- Claims                                                              -/
/- ----------------------------------------------------------------- -/

/-- C1: a record matching more than one shape resolves by the priority order
video > image > carousel.  A record carrying both a video-variant list (with
first variant `u`) and an image-variant list makes `processMedia` emit exactly
one descriptor, of kind video, built from `u` — whatever the image list holds;
and a record carrying both an image-variant list and a carousel child list but
no video list emits exactly one photo descriptor. -/
theorem c1_video_priority :
    (∀ (acc : List MediaDescriptor) (r : RawMediaRecord) (u : String)
        (us imgs : List String),
        r.video_versions = some (u :: us) → r.image_versions2 = some imgs →
        processMedia acc r = .ok (acc ++ [⟨MediaKind.video, u⟩]))
    ∧ (∀ (acc : List MediaDescriptor) (r : RawMediaRecord) (c : String)
        (cs : List String) (children : List RawMediaRecord),
        r.video_versions = none → r.image_versions2 = some (c :: cs) →
        r.carousel_media = some children →
        processMedia acc r = .ok (acc ++ [⟨MediaKind.photo, c⟩])) := by
  constructor
  · intro acc r u us imgs hv hi
    match r with
    | .mk vv iv cm pk =>
      simp [RawMediaRecord.video_versions] at hv
      subst hv
      simp [processMedia]
  · intro acc r c cs children hv hi hc
    match r with
    | .mk vv iv cm pk =>
      simp [RawMediaRecord.video_versions] at hv
      simp [RawMediaRecord.image_versions2] at hi
      subst hv
      subst hi
      simp [processMedia]

/-- C1 witness: the dual-shape leaf yields exactly one video descriptor; an
image-plus-carousel record yields exactly one photo descriptor. -/
theorem c1_video_priority_witness :
    processMedia [] bothLeaf = .ok [⟨MediaKind.video, "v.mp4"⟩] ∧
    processMedia [] (RawMediaRecord.mk none (some ["i.jpg"]) (some [videoLeaf]) none)
      = .ok [⟨MediaKind.photo, "i.jpg"⟩] :=
  ⟨c1_video_priority.1 [] bothLeaf "v.mp4" [] ["i.jpg"] rfl rfl,
   c1_video_priority.2 [] _ "i.jpg" [] [videoLeaf] rfl rfl rfl⟩

/-- C2: flattening preserves depth-first, left-to-right order: every
successful run of the flattening loop appends exactly the spec's depth-first
splice `specFlattenList` of the input records, and the scenario record with
`carousel_media: [imageLeaf, videoLeaf]` flattens to the photo descriptor
followed by the video descriptor, in that order. -/
theorem c2_depth_first_order :
    (∀ (acc out : List MediaDescriptor) (rs : List RawMediaRecord),
        processMediaList acc rs = .ok out → out = acc ++ specFlattenList rs)
    ∧ processMediaList [] [carouselRec]
        = .ok [⟨MediaKind.photo, "i.jpg"⟩, ⟨MediaKind.video, "v.mp4"⟩] :=
  ⟨fun acc out rs h => processMediaList_ok_spec acc out rs h, rfl⟩

/-- C2 witness: the order-preservation statement applied to the concrete
carousel scenario. -/
theorem c2_depth_first_order_witness :
    [⟨MediaKind.photo, "i.jpg"⟩, ⟨MediaKind.video, "v.mp4"⟩]
      = [] ++ specFlattenList [carouselRec] :=
  c2_depth_first_order.1 []
    [⟨MediaKind.photo, "i.jpg"⟩, ⟨MediaKind.video, "v.mp4"⟩] [carouselRec] rfl

/-- C3: with neither a post descriptor nor a story descriptor, the resolution
fails with reason `'Unhandled page type'` (the source message capitalizes the
first word); and in the batch-runner model that failure is this item's own
recorded outcome — every settled outcome is the resolver value of its
originating item and a finished run settles every item. -/
theorem c3_unhandled_page_type :
    (∀ (postItems : List RawMediaRecord) (storyReels : List (String × Reel)),
        computeForLink none none postItems storyReels
          = .error "Unhandled page type")
    ∧ (∀ (ctxs : List LinkCtx) (N : Nat) (s : PoolState LinkCtx ResolvedContent),
        PoolReach resolveLink N ctxs s →
        (∀ p ∈ s.settled, p.2 = resolveLink p.1) ∧
        (s.pending = [] ∧ s.active = [] → s.settled.length = ctxs.length)) := by
  constructor
  · intro postItems storyReels
    rfl
  · intro ctxs N s h
    obtain ⟨-, hM, hA⟩ := poolInv resolveLink N ctxs s h
    refine ⟨hA, ?_⟩
    rintro ⟨hp, ha⟩
    rw [hp, ha] at hM
    simp only [Multiset.coe_nil, zero_add] at hM
    have hcard := congrArg Multiset.card hM
    simpa using hcard

/-- C3 witness: the classification failure at the empty page, and a one-item
batch run that settles the failing link as its own outcome. -/
theorem c3_unhandled_page_type_witness :
    computeForLink none none [] [] = .error "Unhandled page type" ∧
    (PoolState.mk ([] : List LinkCtx) []
        [(LinkCtx.mk none none [] [], resolveLink (LinkCtx.mk none none [] []))]).settled.length
      = [LinkCtx.mk none none [] []].length := by
  refine ⟨c3_unhandled_page_type.1 [] [], ?_⟩
  have hreach : PoolReach resolveLink 1 [LinkCtx.mk none none [] []]
      ⟨[], [], [(LinkCtx.mk none none [] [],
        resolveLink (LinkCtx.mk none none [] []))]⟩ :=
    PoolReach.step
      (PoolReach.step PoolReach.init
        (PoolStep.dispatch (LinkCtx.mk none none [] []) [] [] [] (by decide)))
      (PoolStep.settle [] (LinkCtx.mk none none [] []) [] [] [])
  exact (c3_unhandled_page_type.2 [LinkCtx.mk none none [] []] 1 _ hreach).2
    ⟨rfl, rfl⟩

/-- C4: once the media list is normalized, a non-empty list is returned as
`ResolvedContent` with exactly that list, an empty list fails with
`'No media found'` (the source message capitalizes), and consequently every
successfully returned `ResolvedContent` has a non-empty media list. -/
theorem c4_no_media_found :
    (∀ (title url : Option String) (raw : List RawMediaRecord)
        (m : List MediaDescriptor), processMediaList [] raw = .ok m →
        (m ≠ [] → finishLink title url raw = .ok ⟨title, url, m⟩) ∧
        (m = [] → finishLink title url raw = .error "No media found"))
    ∧ (∀ (postData : Option PostData) (storyData : Option StoryData)
        (postItems : List RawMediaRecord) (storyReels : List (String × Reel))
        (rc : ResolvedContent),
        computeForLink postData storyData postItems storyReels = .ok rc →
        rc.media ≠ []) := by
  constructor
  · intro title url raw m hm
    constructor
    · intro hne
      have hlen : ¬ m.length = 0 := by
        simpa using hne
      simp [finishLink, hm, hlen]
    · intro he
      subst he
      simp [finishLink, hm]
  · intro postData storyData postItems storyReels rc h
    obtain ⟨t, u, raw, hf⟩ := computeForLink_ok postData storyData postItems
      storyReels rc h
    exact (finishLink_ok t u raw rc hf).1

/-- C4 witness: a one-leaf batch returns its media list; an empty batch fails
with `'No media found'`. -/
theorem c4_no_media_found_witness :
    finishLink none none [videoLeaf]
      = .ok ⟨none, none, [⟨MediaKind.video, "v.mp4"⟩]⟩ ∧
    finishLink none none [] = .error "No media found" :=
  ⟨(c4_no_media_found.1 none none [videoLeaf] [⟨MediaKind.video, "v.mp4"⟩]
      rfl).1 (by simp),
   (c4_no_media_found.1 none none [] [] rfl).2 rfl⟩

/-- C5: every resolution classified as a post returns the post descriptor's
`meta.title` (which is `null` exactly when the embedded meta title is absent)
as its title, and the site domain `https://www.instagram.com` concatenated
with the descriptor's relative path as its canonical url. -/
theorem c5_post_title_url :
    ∀ (pd : PostData) (storyData : Option StoryData)
      (postItems : List RawMediaRecord) (storyReels : List (String × Reel))
      (rc : ResolvedContent),
      computeForLink (some pd) storyData postItems storyReels = .ok rc →
      rc.title = pd.meta.title ∧
      rc.url = some ("https://www.instagram.com" ++ pd.url) := by
  intro pd storyData postItems storyReels rc h
  have hpost : computeForLink (some pd) storyData postItems storyReels
      = finishLink pd.meta.title
          (some ("https://www.instagram.com" ++ pd.url)) postItems := rfl
  rw [hpost] at h
  have hinv := finishLink_ok pd.meta.title
    (some ("https://www.instagram.com" ++ pd.url)) postItems rc h
  exact ⟨hinv.2.1, hinv.2.2.1⟩

/-- C5 witness: the spec's post scenario — title `"T"`, url built from the
relative path, one photo descriptor. -/
theorem c5_post_title_url_witness :
    (ResolvedContent.mk (some "T") (some "https://www.instagram.com/p/abc/")
        [⟨MediaKind.photo, "a.jpg"⟩]).title = postSample.meta.title ∧
    (ResolvedContent.mk (some "T") (some "https://www.instagram.com/p/abc/")
        [⟨MediaKind.photo, "a.jpg"⟩]).url
      = some ("https://www.instagram.com" ++ postSample.url) :=
  c5_post_title_url postSample none postItemsSample [] _ rfl

/-- C6: for a story resolution whose reel lookup succeeds, the raw media batch
is the single response item whose `pk` equals the descriptor's
`initial_media_id` (so no match yields an empty batch, hence the
`'No media found'` failure), the title is `full_name || username || null`
(display name, then handle, then null — the JS `||` also skips empty strings),
and the spec's story scenario resolves to title `"A B"` with one video
descriptor. -/
theorem c6_story_resolution :
    (∀ (sd : StoryData) (postItems : List RawMediaRecord)
        (storyReels : List (String × Reel)) (reel : Reel),
        lookupReel storyReels sd.userId = some reel →
        (reel.items.find? (fun i => i.pk == some sd.initial_media_id) = none →
          computeForLink none (some sd) postItems storyReels
            = .error "No media found") ∧
        (∀ r, reel.items.find? (fun i => i.pk == some sd.initial_media_id)
            = some r →
          computeForLink none (some sd) postItems storyReels
            = finishLink (jsOr reel.user.full_name reel.user.username)
                (some ("https://www.instagram.com" ++ sd.url)) [r]))
    ∧ (∀ (a b : Option String) (n : String), a = some n → n ≠ "" →
        jsOr a b = some n)
    ∧ (∀ (a b : Option String) (u : String), (a = none ∨ a = some "") →
        b = some u → u ≠ "" → jsOr a b = some u)
    ∧ (∀ (a b : Option String), (a = none ∨ a = some "") →
        (b = none ∨ b = some "") → jsOr a b = none)
    ∧ computeForLink none (some storySample) [] [("u1", reelSample)]
        = .ok ⟨some "A B", some "https://www.instagram.com/stories/u1/99/",
            [⟨MediaKind.video, "v.mp4"⟩]⟩ := by
  refine ⟨?_, ?_, ?_, ?_, rfl⟩
  · intro sd postItems storyReels reel hr
    constructor
    · intro hf
      simp [computeForLink, hr, hf, finishLink, processMediaList]
    · intro r hf
      simp [computeForLink, hr, hf]
  · intro a b n ha hn
    subst ha
    simp [jsOr, jsTruthy, hn]
  · intro a b u ha hb hu
    subst hb
    rcases ha with ha | ha <;> subst ha <;> simp [jsOr, jsTruthy, hu]
  · intro a b ha hb
    rcases ha with ha | ha <;> rcases hb with hb | hb <;>
      subst ha <;> subst hb <;> simp [jsOr, jsTruthy]

/-- C6 witness: the story branch applied to the concrete scenario (matching
item found), and the title fallback chain at concrete strings. -/
theorem c6_story_resolution_witness :
    computeForLink none (some storySample) [] [("u1", reelSample)]
      = finishLink (jsOr (some "A B") none)
          (some ("https://www.instagram.com" ++ storySample.url)) [videoLeaf] ∧
    jsOr (some "A B") none = some "A B" ∧
    jsOr (some "") (some "handle") = some "handle" ∧
    jsOr none (some "") = none :=
  ⟨((c6_story_resolution.1 storySample [] [("u1", reelSample)] reelSample
      rfl).2 videoLeaf rfl),
   c6_story_resolution.2.1 (some "A B") none "A B" rfl (by decide),
   c6_story_resolution.2.2.1 (some "") (some "handle") "handle"
     (Or.inr rfl) rfl (by decide),
   c6_story_resolution.2.2.2.1 none (some "") (Or.inl rfl) (Or.inr rfl)⟩

/-- C7: a record with none of the three recognized fields contributes nothing
and raises no error: `processMedia` returns the accumulated array unchanged,
and deleting such a record from any position of the input leaves the
flattening of the remaining records unchanged. -/
theorem c7_unrecognized_skipped :
    ∀ (r : RawMediaRecord), r.video_versions = none →
      r.image_versions2 = none → r.carousel_media = none →
      (∀ acc, processMedia acc r = .ok acc) ∧
      (∀ (acc : List MediaDescriptor) (xs ys : List RawMediaRecord),
        processMediaList acc (xs ++ r :: ys) = processMediaList acc (xs ++ ys)) := by
  intro r hv hi hc
  have hone : ∀ acc, processMedia acc r = .ok acc := by
    match r with
    | .mk vv iv cm pk =>
      simp [RawMediaRecord.video_versions] at hv
      simp [RawMediaRecord.image_versions2] at hi
      simp [RawMediaRecord.carousel_media] at hc
      subst hv; subst hi; subst hc
      intro acc
      simp [processMedia]
  refine ⟨hone, ?_⟩
  intro acc xs ys
  induction xs generalizing acc with
  | nil => simp only [List.nil_append, processMediaList, hone acc]
  | cons x xs ih =>
    simp only [List.cons_append, processMediaList]
    cases processMedia acc x with
    | error e => rfl
    | ok m => exact ih m

/-- C7 witness: a pk-only record in the middle of a batch is skipped and the
neighbours flatten as if it were absent. -/
theorem c7_unrecognized_skipped_witness :
    processMedia [] unrecognizedRec = .ok [] ∧
    processMediaList [] ([imageLeaf] ++ unrecognizedRec :: [videoLeaf])
      = processMediaList [] ([imageLeaf] ++ [videoLeaf]) :=
  ⟨(c7_unrecognized_skipped unrecognizedRec rfl rfl rfl).1 [],
   (c7_unrecognized_skipped unrecognizedRec rfl rfl rfl).2 [] [imageLeaf]
     [videoLeaf]⟩

/-- C8: media normalization is deterministic and stateless: equal input trees
give identical output lists, and the contribution of the input never depends
on the already-accumulated state — running from any accumulator equals
running from the empty one with the accumulator prepended. -/
theorem c8_deterministic_stateless :
    (∀ (t1 t2 : List RawMediaRecord), t1 = t2 →
      processMediaList [] t1 = processMediaList [] t2)
    ∧ (∀ (acc : List MediaDescriptor) (rs : List RawMediaRecord),
      processMediaList acc rs = (processMediaList [] rs).map (acc ++ ·)) :=
  ⟨fun t1 t2 h => by rw [h], processMediaList_state⟩

/-- C8 witness: two runs on the same concrete tree agree, and a run from a
non-empty accumulator is the pure run with the accumulator prepended. -/
theorem c8_deterministic_stateless_witness :
    processMediaList [] [carouselRec] = processMediaList [] [carouselRec] ∧
    processMediaList [⟨MediaKind.photo, "i.jpg"⟩] [videoLeaf]
      = (processMediaList [] [videoLeaf]).map
          (fun l => [⟨MediaKind.photo, "i.jpg"⟩] ++ l) :=
  ⟨c8_deterministic_stateless.1 [carouselRec] [carouselRec] rfl,
   c8_deterministic_stateless.2 [⟨MediaKind.photo, "i.jpg"⟩] [videoLeaf]⟩

/-- C9: in every reachable state of the batch-runner model at concurrency `N`
no more than `N` invocations are unsettled, every settled outcome is the
per-item value of its originating item (failures settle like successes and
remove only their own invocation), and a completed run — nothing pending,
nothing active — has settled exactly the input items: one outcome per item. -/
theorem c9_bounded_concurrency {α β : Type} (fn : α → Except String β)
    (N : Nat) (items : List α) (s : PoolState α β)
    (h : PoolReach fn N items s) :
    s.active.length ≤ N ∧
      (∀ p ∈ s.settled, p.2 = fn p.1) ∧
      (s.pending = [] ∧ s.active = [] →
        ((s.settled.map Prod.fst : List α) : Multiset α) = (items : Multiset α) ∧
        s.settled.length = items.length) := by
  obtain ⟨hN, hM, hA⟩ := poolInv fn N items s h
  refine ⟨hN, hA, ?_⟩
  rintro ⟨hp, ha⟩
  rw [hp, ha] at hM
  simp only [Multiset.coe_nil, zero_add] at hM
  refine ⟨hM, ?_⟩
  have hcard := congrArg Multiset.card hM
  simpa using hcard

/-- C9 witness: a complete interleaved run of three items at concurrency two,
in which item 2 fails mid-run; the run still settles all three items, one
outcome each. -/
theorem c9_bounded_concurrency_witness :
    (PoolState.mk ([] : List Nat) ([] : List Nat)
        [(2, wfn 2), (3, wfn 3), (1, wfn 1)]).active.length ≤ 2 ∧
    (([(2, wfn 2), (3, wfn 3), (1, wfn 1)].map Prod.fst : List Nat) : Multiset Nat)
      = (([1, 2, 3] : List Nat) : Multiset Nat) ∧
    [(2, wfn 2), (3, wfn 3), (1, wfn 1)].length = ([1, 2, 3] : List Nat).length := by
  have s1 : PoolStep wfn 2 ⟨[1, 2, 3], [], []⟩ ⟨[2, 3], [1], []⟩ :=
    PoolStep.dispatch 1 [2, 3] [] [] (by decide)
  have s2 : PoolStep wfn 2 ⟨[2, 3], [1], []⟩ ⟨[3], [2, 1], []⟩ :=
    PoolStep.dispatch 2 [3] [1] [] (by decide)
  have s3 : PoolStep wfn 2 ⟨[3], [2, 1], []⟩ ⟨[3], [2], [(1, wfn 1)]⟩ :=
    PoolStep.settle [2] 1 [] [3] []
  have s4 : PoolStep wfn 2 ⟨[3], [2], [(1, wfn 1)]⟩
      ⟨[], [3, 2], [(1, wfn 1)]⟩ :=
    PoolStep.dispatch 3 [] [2] [(1, wfn 1)] (by decide)
  have s5 : PoolStep wfn 2 ⟨[], [3, 2], [(1, wfn 1)]⟩
      ⟨[], [2], [(3, wfn 3), (1, wfn 1)]⟩ :=
    PoolStep.settle [] 3 [2] [] [(1, wfn 1)]
  have s6 : PoolStep wfn 2 ⟨[], [2], [(3, wfn 3), (1, wfn 1)]⟩
      ⟨[], [], [(2, wfn 2), (3, wfn 3), (1, wfn 1)]⟩ :=
    PoolStep.settle [] 2 [] [] [(3, wfn 3), (1, wfn 1)]
  have hreach : PoolReach wfn 2 [1, 2, 3]
      ⟨[], [], [(2, wfn 2), (3, wfn 3), (1, wfn 1)]⟩ :=
    PoolReach.step
      (PoolReach.step
        (PoolReach.step
          (PoolReach.step
            (PoolReach.step (PoolReach.step PoolReach.init s1) s2) s3) s4) s5) s6
  have h := c9_bounded_concurrency wfn 2 [1, 2, 3] _ hreach
  exact ⟨h.1, (h.2.2 ⟨rfl, rfl⟩).1, (h.2.2 ⟨rfl, rfl⟩).2⟩

/-- C10: when the page's structured data contains both a post-shaped and a
story-shaped descriptor, resolution proceeds exactly as a post: the result is
that of the post branch and is independent of the story descriptor and of the
story fetch response. -/
theorem c10_post_precedence :
    ∀ (pd : PostData) (storyData : Option StoryData)
      (postItems : List RawMediaRecord)
      (storyReels storyReels2 : List (String × Reel)),
      computeForLink (some pd) storyData postItems storyReels
        = computeForLink (some pd) none postItems storyReels2 := by
  intro pd storyData postItems storyReels storyReels2
  rfl
